import Mathlib

/-!
Shallow embedding of the agent-orchestration core of the web-scrapping-agent
repository (src/my_agent_tools.py, src/my_utils.py, src/my_brain_agent.py,
src/my_navigator_agent.py, src/my_content_extract_agent.py, src/my_agent.py),
together with theorems settling the frozen claims about it.

Modelling conventions:
* Python exceptions are modelled with `Except PyError`; a function that can
  raise returns `Except PyError α`.  Where a method mutates an object and then
  raises, the function returns the mutated state together with the outcome.
* External collaborators (the browser session, the model client, the real
  filesystem clock/timestamps) are parameters: disk writes take a `Bool`
  outcome flag, model responses are an input script, browser-tool effects are
  an oracle function.  This follows the spec's §6, which declares them
  out-of-scope collaborators with narrow contracts.
* `json.loads` on a model-supplied argument string is modelled by shipping the
  parse outcome alongside the raw string (`ParsedArgs`), since the embedding
  does not contain a JSON parser.
* Python dynamic-attribute semantics are modelled faithfully where a claim
  turns on them: `my_agent_tools.ActionResult` declares no `is_done` field
  (pydantic silently drops the extra constructor keyword), so the attribute
  access `action_result.is_done` in `MyBrainAgent.run` raises AttributeError;
  similarly `str` has no `.keys()`, and `extraction_done`'s local
  `csv_filename` can be referenced before assignment (UnboundLocalError).
-/

namespace AgentCore

/-- Python exceptions that can escape the embedded functions. -/
inductive PyError
  | attributeError (attr : String)
  | unboundLocalError (name : String)
  | jsonDecodeError
  | typeError (msg : String)
  | runtimeError (msg : String)
  | exception (msg : String)
  | osError
deriving Repr, DecidableEq

/-- Structured `content` payload of an ActionResult (`extraction_done` would
return `\x7b'extracted_rows': ..., 'csv_path': ...\x7d`). -/
inductive ToolContent
  | extractedRows (rows : List String) (csv_path : String)
deriving Repr, DecidableEq

/-- Source src/my_agent_tools.py, `class ActionResult(BaseModel)` (lines 20-32):
`action_name` defaults to "default_action_name", `success` to True,
`action_result_msg` to Python `None` (hence `Option`), `content` to None.
Note: the model declares NO `is_done` field. -/
structure ActionResult where
  action_name : String := "default_action_name"
  success : Bool := true
  action_result_msg : Option String := none
  content : Option ToolContent := none
deriving Repr, DecidableEq

/-- The Python attribute access `r.is_done` on a `my_agent_tools.ActionResult`:
the pydantic model declares no `is_done` field (an `is_done=...` constructor
keyword is silently ignored under the default `extra` policy), so the access
raises `AttributeError`.  `MyBrainAgent.run` performs this access after every
step. -/
def ActionResult.is_done_attr (_ : ActionResult) : Except PyError Bool :=
  .error (.attributeError ("is_done"))

/-- The `ctx.memory` dict of a `MyAgentContext` (src/my_utils.py), restricted
to the keys the embedded tools use: "extracted_rows" (accumulated rows,
`none` = key absent) and "plan" (serialized plan, `none` = key absent). -/
structure Memory where
  extracted_rows : Option (List String) := none
  plan : Option String := none
deriving Repr, DecidableEq

/-- Source src/my_agent_tools.py `persist_rows` (lines 551-569): an empty `rows` list
returns a failing ActionResult before touching memory; otherwise the key
"extracted_rows" is created if absent and the batch is appended.  Rows are
`list[str]` in the source (JSON strings, stored unparsed). -/
def persist_rows (mem : Memory) (rows : List String) : Memory × ActionResult :=
  if rows.isEmpty then
    (mem,
     { action_name := "persist_rows",
       action_result_msg := some ("No rows were passed to the tool!"),
       success := false })
  else
    let current := mem.extracted_rows.getD []
    let updated := current ++ rows
    ({ mem with extracted_rows := some updated },
     { action_name := "persist_rows",
       action_result_msg := some ("Successfully persisted " ++ toString rows.length
         ++ " rows. Total rows: " ++ toString updated.length),
       success := true })

/-- The Python attribute access `row.keys()` performed by `extraction_done` on
the first accumulated row: `persist_rows` stores rows as `str` (JSON text,
never parsed), and `str` has no `.keys` attribute, so the access raises
`AttributeError`. -/
def strKeys (_ : String) : Except PyError (List String) :=
  .error (.attributeError ("keys"))

/-- Source src/my_agent_tools.py `extraction_done` (lines 572-603), with the
filesystem write outcome abstracted by `fsWriteOk` and the timestamped file
name by a fixed string.  The local `csv_filename` is assigned only inside the
`try` block, after `fieldnames = list(extracted_rows[0].keys())`; the final
`return` references it unconditionally, so when it was never assigned the
return raises `UnboundLocalError` (modelled by threading the local as an
`Option`). -/
def extraction_done (fsWriteOk : Bool) (mem : Memory) (status : Bool)
    (status_message : String) : Except PyError ActionResult :=
  let extracted_rows := mem.extracted_rows.getD []
  -- the if-block: locals after it are (csv_filename?, status, status_message)
  let afterIf : Option String × Bool × String :=
    if extracted_rows.isEmpty then
      -- `if extracted_rows:` false: body skipped, csv_filename never assigned
      (none, status, status_message)
    else
      match strKeys (extracted_rows.headD ("")) with
      | .ok _fieldnames =>
          -- unreachable for str rows; kept to mirror the source's happy path
          if fsWriteOk then
            (some ("extracted_data_TIMESTAMP.csv"), status,
             status_message ++ "\nData saved to extracted_data_TIMESTAMP.csv")
          else
            -- open/write raised: caught by `except`, csv_filename already set
            (some ("extracted_data_TIMESTAMP.csv"), false,
             status_message ++ "\nError saving to CSV: write failed")
      | .error _e =>
          -- AttributeError from .keys() caught by `except Exception`:
          -- status forced to False, csv_filename still unassigned
          (none, false,
           status_message ++ "\nError saving to CSV: str object has no attribute keys")
  match afterIf with
  | (csv_filename, status, status_message) =>
    match csv_filename with
    | none => .error (.unboundLocalError ("csv_filename"))
    | some f =>
        .ok { action_name := "extraction_done",
              action_result_msg := some ("Extraction complete. Status: "
                ++ (if status then ("Success") else ("Failed")) ++ ". " ++ status_message
                ++ "\nTotal rows extracted " ++ toString extracted_rows.length),
              success := status,
              content := some (.extractedRows extracted_rows f) }

/-- Arguments of the embedded tools, as they look after `json.loads` of the
model-supplied argument string. -/
inductive ToolArgs
  | doneArgs (success : Bool) (message_to_user : String)
  | wnaArgs (navigation_goal : String)
  | ceaArgs (extraction_goal : String) (row_schema : String)
  | printFileArgs (file_path : String)
  | persistRowsArgs (rows : List String)
  | extractionDoneArgs (status : Bool) (status_message : String)
  | browserArgs (payload : String)
deriving Repr, DecidableEq

/-- Outcome of `json.loads(function_tool_call.arguments)`: `malformed` stands
for a string on which `json.loads` raises JSONDecodeError. -/
inductive ParsedArgs
  | malformed
  | parsed (args : ToolArgs)
deriving Repr, DecidableEq

/-- A `ResponseFunctionToolCall`: the call identifier, tool name, the raw
argument string and its parse outcome. -/
structure ToolCallData where
  call_id : String
  name : String
  raw_arguments : String
  parsed_arguments : ParsedArgs
deriving Repr, DecidableEq

/-- One tool of a tool set: its `__name__` and its implementation
`(memory, parsed args) -> ActionResult`, which may raise. -/
structure ToolDef where
  name : String
  impl : Memory → ToolArgs → Except PyError (Memory × ActionResult)

/-- Source src/my_agent_tools.py `MyAgentTools.execute_tool` (lines 628-635): look the
tool up by `__name__`; if absent return a failing ActionResult (no raise; note
the lookup happens BEFORE `json.loads`, so an unknown name never raises even
with malformed arguments); otherwise parse the arguments (JSONDecodeError
propagates) and invoke the implementation. -/
def execute_tool (tools : List ToolDef) (mem : Memory) (call : ToolCallData) :
    Except PyError (Memory × ActionResult) :=
  match tools.find? (fun t => t.name == call.name) with
  | none =>
      .ok (mem,
        { action_name := "execute_tool",
          action_result_msg := some ("Tool '" ++ call.name ++ "' not found"),
          success := false })
  | some t =>
      match call.parsed_arguments with
      | .malformed => .error .jsonDecodeError
      | .parsed args => t.impl mem args

/-- One observation of the browser collaborator (url, tab list, rendered
clickable-element text, base64 screenshot), as consumed by
`get_current_state_message`. -/
structure BrowserObs where
  url : String := ""
  tabs : String := ""
  elements_text : String := ""
  screenshot : String := ""
deriving Repr, DecidableEq

/-- Conversation entries as built by `my_utils.MessageManager` plus the
ephemeral per-step browser-state entries.  `system`/`user`/`assistant` carry a
plain content string; `functionCall`/`functionCallOutput` mirror
`add_ai_function_tool_call_message` / `add_tool_result_message` (the output may
be Python `None`).  The three `state*` constructors are the entries produced
by `MyNavigatorAgent.get_current_state_message`: they have role "user" on the
wire but are structurally distinct from every durable entry (the first embeds
the step number in "Current step: ...", the second is a content LIST holding
an `input_image` part, the third is the fixed end marker); `stateCombined` is
the single text+image entry of `my_utils.get_current_browser_state_message`. -/
inductive Message
  | system (content : String)
  | user (content : String)
  | assistant (content : String)
  | functionCall (call_id : String) (name : String) (arguments : String)
  | functionCallOutput (call_id : String) (output : Option String)
  | stateText (step : Nat) (obs : BrowserObs)
  | stateImage (obs : BrowserObs)
  | stateEnd
  | stateCombined (step : Nat) (obs : BrowserObs)
deriving Repr, DecidableEq

/-- Source src/my_navigator_agent.py `get_current_state_message` (lines 179-239):
three user entries re-derived fresh from the live page each step. -/
def get_current_state_message (current_step : Nat) (obs : BrowserObs) : List Message :=
  [.stateText current_step obs, .stateImage obs, .stateEnd]

/-- Source src/my_utils.py `get_current_browser_state_message` (lines 251-303): a
single user entry whose content list holds the state text and the screenshot. -/
def get_current_browser_state_message (current_step : Nat) (obs : BrowserObs) :
    List Message :=
  [.stateCombined current_step obs]

/-- Source src/my_utils.py `MessageManager.persist_state` (lines 149-177): makedirs,
two `open`/`write` calls for the transcript and one per embedded screenshot,
with NO try/except anywhere; a failing disk write raises OSError which
propagates to the caller.  `writeOk` abstracts the write outcome; on success
the written snapshot is returned (for the persisted-transcript trace). -/
def persist_state (writeOk : Bool) (messages : List Message) :
    Except PyError (List Message) :=
  if writeOk then .ok messages else .error .osError

/-- Source src/my_agent.py `MyAgent.save_screenshot` (lines 262-287): makedirs plus an
`open`/`write` of the decoded screenshot, with no exception handling; a failing
write raises.  Returns the file path on success. -/
def save_screenshot (writeOk : Bool) (step_number : Nat) : Except PyError String :=
  if writeOk then
    .ok ("screenshots/screenshot_TIMESTAMP_step" ++ toString step_number ++ ".png")
  else .error .osError

/-- Terminal outcome of a delegated child-agent run, as folded into the
parent's tool result by `wna_navigate_and_find` / `cea_extract_content`.
Modelled from the spec: the delegation tools construct the child with
`ctx.new_agent_context()` and block on its full run; the concrete child tool
module (`my_navigator_agent_tools.py`) is not under src/, and the child
constructors in src/ disagree with these call sites on their signatures, so
the child run's terminal outcome is a parameter. -/
structure DelegationOracle where
  navigator_outcome : String → Except PyError ActionResult
  extractor_outcome : String → String → Except PyError ActionResult

/-- Source src/my_agent_tools.py `done` (lines 36-43): returns an ActionResult whose
success flag is the model-supplied flag.  (No `is_done` field is set — the
ActionResult model has none.)  A non-matching argument shape is a keyword
mismatch, i.e. TypeError. -/
def done_tool : ToolDef :=
  ⟨"done", fun mem args =>
    match args with
    | .doneArgs success message_to_user =>
        .ok (mem, { action_name := "done",
                    action_result_msg := some message_to_user,
                    success := success })
    | _ => .error (.typeError ("done"))⟩

/-- Source src/my_agent_tools.py `wna_navigate_and_find` (lines 438-453) as a brain
tool: runs the navigator child to completion and maps its terminal result. -/
def wna_tool (oracle : DelegationOracle) : ToolDef :=
  ⟨"wna_navigate_and_find", fun mem args =>
    match args with
    | .wnaArgs navigation_goal =>
        match oracle.navigator_outcome navigation_goal with
        | .error e => .error e
        | .ok r =>
            .ok (mem, { action_name := "wna_navigate_and_find",
                        action_result_msg := r.action_result_msg,
                        success := r.success })
    | _ => .error (.typeError ("wna_navigate_and_find"))⟩

/-- Source src/my_agent_tools.py `cea_extract_content` (lines 456-478) as a brain
tool: runs the extraction child to completion and maps its terminal result. -/
def cea_tool (oracle : DelegationOracle) : ToolDef :=
  ⟨"cea_extract_content", fun mem args =>
    match args with
    | .ceaArgs extraction_goal row_schema =>
        match oracle.extractor_outcome extraction_goal row_schema with
        | .error e => .error e
        | .ok r =>
            .ok (mem, { action_name := "cea_extract_content",
                        action_result_msg := r.action_result_msg,
                        success := r.success })
    | _ => .error (.typeError ("cea_extract_content"))⟩

/-- Source src/my_agent_tools.py `print_file_content` (lines 504-548): reads a file
and returns its (formatted) content; every exception is caught and turned into
a failing ActionResult, so the tool is total.  `fs` is the filesystem
collaborator (read outcome per path). -/
def print_file_content_tool (fs : String → Except Unit String) : ToolDef :=
  ⟨"print_file_content", fun mem args =>
    match args with
    | .printFileArgs file_path =>
        match fs file_path with
        | .error _ =>
            .ok (mem, { action_name := "print_file_content",
                        action_result_msg := some ("Error: File not found at '"
                          ++ file_path ++ "'"),
                        success := false })
        | .ok content =>
            .ok (mem, { action_name := "print_file_content",
                        action_result_msg := some ("Content of file '" ++ file_path
                          ++ "':\n" ++ content),
                        success := true })
    | _ => .error (.typeError ("print_file_content"))⟩

/-- A browser-primitive tool (go_back, go_to_url, click_element, ...): a thin
adapter over the browser collaborator (spec §6); its outcome per invocation is
the oracle's (it may raise, e.g. a navigation failure in `page.goto`). -/
def browser_tool (toolName : String)
    (browserExec : String → ToolArgs → Except PyError ActionResult) : ToolDef :=
  ⟨toolName, fun mem args => (browserExec toolName args).map (fun r => (mem, r))⟩

/-- Source src/my_agent_tools.py `persist_rows` as a CEA tool. -/
def persist_rows_tool : ToolDef :=
  ⟨"persist_rows", fun mem args =>
    match args with
    | .persistRowsArgs rows =>
        let (mem', r) := persist_rows mem rows
        .ok (mem', r)
    | _ => .error (.typeError ("persist_rows"))⟩

/-- Source src/my_agent_tools.py `extraction_done` as a CEA tool. -/
def extraction_done_tool (fsWriteOk : Bool) : ToolDef :=
  ⟨"extraction_done", fun mem args =>
    match args with
    | .extractionDoneArgs status status_message =>
        (extraction_done fsWriteOk mem status status_message).map (fun r => (mem, r))
    | _ => .error (.typeError ("extraction_done"))⟩

/-- Source src/my_agent_tools.py `BRAIN_TOOLS` (lines 656-662): done,
wna_navigate_and_find, cea_extract_content, print_file_content
(persist_plan is commented out in the source). -/
def BRAIN_TOOLS (oracle : DelegationOracle) (fs : String → Except Unit String) :
    List ToolDef :=
  [done_tool, wna_tool oracle, cea_tool oracle, print_file_content_tool fs]

/-- Source src/my_agent_tools.py `CEA_TOOLS` (lines 681-691): browser primitives plus
extraction_done and persist_rows. -/
def CEA_TOOLS (browserExec : String → ToolArgs → Except PyError ActionResult)
    (fsWriteOk : Bool) : List ToolDef :=
  [browser_tool ("go_back") browserExec,
   browser_tool ("go_to_url") browserExec,
   browser_tool ("click_element") browserExec,
   browser_tool ("input_text") browserExec,
   browser_tool ("send_keys") browserExec,
   browser_tool ("get_dropdown_options") browserExec,
   browser_tool ("select_dropdown_option") browserExec,
   extraction_done_tool fsWriteOk,
   persist_rows_tool]

/-- A model response as consumed by `MyBrainAgent.step`: `output_text` (free
text, possibly empty=none) and at most one function tool call.  The brain
checks `output_text` first and only otherwise looks for a tool call. -/
structure ModelResponse where
  output_text : Option String := none
  tool_call : Option ToolCallData := none
deriving Repr, DecidableEq

/-- The mutable state of a `MyBrainAgent`: its MessageManager's durable
message list and the shared `ctx.memory`. -/
structure BrainAgentState where
  messages : List Message
  memory : Memory
deriving Repr, DecidableEq

/-- Constructor `MyBrainAgent.__init__`: the MessageManager is seeded with the system
prompt and the user prompt. -/
def brainInit : BrainAgentState :=
  { messages := [.system ("BRAIN_SYSTEM_PROMPT"), .user ("BRAIN_USER_PROMPT")],
    memory := {} }

/-- Source src/my_brain_agent.py `MyBrainAgent.step` (lines 74-119): append the
"Current step" assistant message to the durable list; build the wire snapshot
(durable copy plus the ephemeral plan message) and persist it (a failing write
raises, there is no try/except); then: free text → append it, return a
success ActionResult ("no action executed"; the `is_done=False` keyword passed
in the source is dropped by pydantic); no text and no tool call → raise; tool
call → append the `function_call` entry, dispatch through `execute_tool`
(exceptions propagate, leaving the call entry dangling), then append the
matching `function_call_output` entry.  Returns the mutated state (the
MessageManager mutations survive an exception) plus the outcome. -/
def brainStep (persistOk : Bool) (oracle : DelegationOracle)
    (fs : String → Except Unit String) (st : BrainAgentState) (step_number : Nat)
    (resp : ModelResponse) : BrainAgentState × Except PyError ActionResult :=
  let st := { st with
    messages := st.messages ++ [.assistant ("Current step: " ++ toString step_number)] }
  let snapshot := st.messages
    ++ [.assistant ("Current plan: " ++ st.memory.plan.getD ("\x7b\x7d"))]
  match persist_state persistOk snapshot with
  | .error e => (st, .error e)
  | .ok _written =>
    match resp.output_text with
    | some t =>
        ({ st with messages := st.messages ++ [.assistant t] },
         .ok { action_result_msg := some ("No action executed. The model output is text."),
               success := true })
    | none =>
        match resp.tool_call with
        | none =>
            (st, .error (.exception ("Step " ++ toString step_number
              ++ ", No function tool call or response message")))
        | some c =>
            let st := { st with
              messages := st.messages ++ [.functionCall c.call_id c.name c.raw_arguments] }
            match execute_tool (BRAIN_TOOLS oracle fs) st.memory c with
            | .error e => (st, .error e)
            | .ok (mem', r) =>
                ({ st with
                    memory := mem',
                    messages := st.messages
                      ++ [.functionCallOutput c.call_id r.action_result_msg] },
                 .ok r)

/-- Loop body of src/my_brain_agent.py `MyBrainAgent.run` (lines 60-71):
`for step_number in range(max_steps)` running `step`, then
`if action_result.is_done: break` — an attribute access that raises
AttributeError because ActionResult has no `is_done` field; the for-else
returns the last step's `action_result` (a NameError if the range was empty).
Arguments: current step number, remaining iterations, the last bound
`action_result`, the agent state. -/
def brainRunLoop (persistOk : Bool) (oracle : DelegationOracle)
    (fs : String → Except Unit String) (script : Nat → ModelResponse) :
    Nat → Nat → Option ActionResult → BrainAgentState →
    BrainAgentState × Except PyError ActionResult
  | _stepNo, 0, last, st =>
      match last with
      | none => (st, .error (.unboundLocalError ("action_result")))
      | some r => (st, .ok r)
  | stepNo, rem + 1, _last, st =>
      match brainStep persistOk oracle fs st stepNo (script stepNo) with
      | (st', .error e) => (st', .error e)
      | (st', .ok r) =>
          match r.is_done_attr with
          | .error e => (st', .error e)
          | .ok true => (st', .ok r)
          | .ok false => brainRunLoop persistOk oracle fs script (stepNo + 1) rem (some r) st'

/-- Source src/my_brain_agent.py `MyBrainAgent.run` (lines 60-71), from the initial
state; `max_steps` is 1000 in the source (`self.max_steps`). -/
def brainRun (persistOk : Bool) (oracle : DelegationOracle)
    (fs : String → Except Unit String) (script : Nat → ModelResponse)
    (max_steps : Nat) : BrainAgentState × Except PyError ActionResult :=
  brainRunLoop persistOk oracle fs script 0 max_steps none brainInit

/-- The browser_use ActionResult, as used by src/my_navigator_agent.py (imported
there from browser_use).  Modelled from the spec for the fields the navigator
reads: an `is_done` completion flag, a success flag and a result message.
(The navigator's tool module `my_navigator_agent_tools.py` is not under src/;
the spec describes its tools as returning results carrying a termination
signal and a success flag.) -/
structure NavActionResult where
  is_done : Bool := false
  success : Bool := true
  action_result_msg : Option String := none
deriving Repr, DecidableEq

/-- Outcome of `json.loads(response.output_text)` in the navigator step:
`malformed` stands for text on which `json.loads` raises. -/
inductive ParsedText
  | malformed
  | parsed (json_text : String)
deriving Repr, DecidableEq

/-- A model response as consumed by `MyNavigatorAgent.step`: unlike the brain,
the navigator handles `output_text` AND a tool call independently (two separate
`if`s, lines 149-176), so both may be present in one response. -/
structure NavModelResponse where
  output_text : Option ParsedText := none
  tool_call : Option ToolCallData := none
deriving Repr, DecidableEq

/-- The mutable state of a `MyNavigatorAgent`: the MessageManager's durable
message list plus the trace of transcript snapshots written by
`persist_state`, one `(step_number, snapshot)` per successful write. -/
structure NavAgentState where
  messages : List Message
  persisted : List (Nat × List Message)
deriving Repr, DecidableEq

/-- Constructor `MyNavigatorAgent.__init__`: the MessageManager is seeded with the system
prompt and the task statement. -/
def navInit : NavAgentState :=
  { messages := [.system ("NAV_SYSTEM_PROMPT"), .user ("NAV_TASK")], persisted := [] }

/-- Source src/my_navigator_agent.py `MyNavigatorAgent.step` (lines 109-176): fetch
the browser state; take a deep-copied snapshot of the durable messages
(`get_messages`, src/my_utils.py lines 146-147) and extend THE COPY with the
ephemeral current-state entries (the durable list is deliberately not
touched); persist the snapshot (an unguarded disk write: failure raises); call
the model; if `output_text` is present, `json.loads` it (malformed text
raises) and append it as a durable assistant entry; if a tool call is present,
append the `function_call` entry, execute the tool (`navExec` is the tool-set
collaborator; an exception propagates and leaves the call entry dangling) and
append the matching `function_call_output`; return `(is_done, is_success)` —
with NO error when the response carries neither text nor a call (the step
just logs and returns `(False, True)`). -/
def navStep (persistOk : Bool)
    (navExec : ToolCallData → Except PyError NavActionResult)
    (obs : Nat → BrowserObs) (st : NavAgentState) (step_number : Nat)
    (resp : NavModelResponse) : NavAgentState × Except PyError (Bool × Bool) :=
  let snapshot := st.messages ++ get_current_state_message step_number (obs step_number)
  match persist_state persistOk snapshot with
  | .error e => (st, .error e)
  | .ok written =>
    let st := { st with persisted := st.persisted ++ [(step_number, written)] }
    let afterText : NavAgentState × Option PyError :=
      match resp.output_text with
      | none => (st, none)
      | some .malformed => (st, some .jsonDecodeError)
      | some (.parsed j) =>
          ({ st with messages := st.messages ++ [.assistant j] }, none)
    match afterText with
    | (st, some e) => (st, .error e)
    | (st, none) =>
      match resp.tool_call with
      | none => (st, .ok (false, true))
      | some c =>
          let st := { st with
            messages := st.messages ++ [.functionCall c.call_id c.name c.raw_arguments] }
          match navExec c with
          | .error e => (st, .error e)
          | .ok r =>
              ({ st with messages := st.messages
                  ++ [.functionCallOutput c.call_id r.action_result_msg] },
               .ok (r.is_done, r.success))

/-- Loop of src/my_navigator_agent.py `MyNavigatorAgent.run` (lines
94-106): `for step_number in range(max_steps)`, breaking when a step reports
`is_done`; the for-else only logs.  `run` RETURNS None in every case; the
third component counts the loop iterations that executed (observable in the
source through the per-step logging). -/
def navRunLoop (persistOk : Bool)
    (navExec : ToolCallData → Except PyError NavActionResult)
    (obs : Nat → BrowserObs) (script : Nat → NavModelResponse) :
    Nat → Nat → NavAgentState → NavAgentState × Except PyError Unit × Nat
  | _stepNo, 0, st => (st, .ok (), 0)
  | stepNo, rem + 1, st =>
      match navStep persistOk navExec obs st stepNo (script stepNo) with
      | (st', .error e) => (st', .error e, 1)
      | (st', .ok (is_done, _is_success)) =>
          if is_done then (st', .ok (), 1)
          else
            match navRunLoop persistOk navExec obs script (stepNo + 1) rem st' with
            | (st'', res, n) => (st'', res, n + 1)

/-- Source src/my_navigator_agent.py `MyNavigatorAgent.run` from the initial state
(default budget `max_steps: int = 1000`). -/
def navRun (persistOk : Bool)
    (navExec : ToolCallData → Except PyError NavActionResult)
    (obs : Nat → BrowserObs) (script : Nat → NavModelResponse)
    (max_steps : Nat) : NavAgentState × Except PyError Unit × Nat :=
  navRunLoop persistOk navExec obs script 0 max_steps navInit

/-- Outcome of `json.loads(response.output_text)['rows']` in the
content-extract step; the row objects are abstracted to strings. -/
inductive ParsedRows
  | malformed
  | parsed (rows : List String)
deriving Repr, DecidableEq

/-- A model response as consumed by `MyContentExtractAgent.step`: the step
checks `output_text` first and only otherwise looks for a tool call. -/
structure CeaModelResponse where
  output_text : Option ParsedRows := none
  tool_call : Option ToolCallData := none
deriving Repr, DecidableEq

/-- The mutable state of a `MyContentExtractAgent`: the MessageManager's
durable list, the shared `ctx.memory` and the `self._extracted_rows`
attribute. -/
structure CeaAgentState where
  messages : List Message
  memory : Memory
  extracted_rows_attr : List String
deriving Repr, DecidableEq

/-- Source src/my_content_extract_agent.py `MyContentExtractAgent.step` (lines
103-175): snapshot the durable messages and extend the copy with the ephemeral
browser-state entry and the full-page-markdown user entry; persist the
snapshot (unguarded write, failure raises); then: parsed `output_text` →
store the rows on `self._extracted_rows` and return a success ActionResult
(the `is_done=True` keyword in the source is dropped by pydantic — ActionResult
has no such field); neither text nor tool call → `raise RuntimeError`; tool
call → append the call entry, dispatch (exceptions propagate), append the
matching output entry. -/
def ceaStep (persistOk : Bool) (tools : List ToolDef) (obs : Nat → BrowserObs)
    (page_markdown : String) (st : CeaAgentState) (step_number : Nat)
    (resp : CeaModelResponse) : CeaAgentState × Except PyError ActionResult :=
  let snapshot := st.messages
    ++ get_current_browser_state_message step_number (obs step_number)
    ++ [.user ("Here is the full page content rendered as Markdown:\n\n"
         ++ page_markdown)]
  match persist_state persistOk snapshot with
  | .error e => (st, .error e)
  | .ok _written =>
    match resp.output_text with
    | some .malformed => (st, .error .jsonDecodeError)
    | some (.parsed rows) =>
        ({ st with extracted_rows_attr := rows },
         .ok { action_result_msg := some ("Extraction of " ++ toString rows.length
                 ++ " rows completed."),
               success := true })
    | none =>
        match resp.tool_call with
        | none => (st, .error (.runtimeError ("No function tool call detected.")))
        | some c =>
            let st := { st with
              messages := st.messages ++ [.functionCall c.call_id c.name c.raw_arguments] }
            match execute_tool tools st.memory c with
            | .error e => (st, .error e)
            | .ok (mem', r) =>
                ({ st with
                    memory := mem',
                    messages := st.messages
                      ++ [.functionCallOutput c.call_id r.action_result_msg] },
                 .ok r)

/-- Loop of src/my_agent.py `MyAgent.run` (lines 153-159):
`for step_number in range(max_steps): await self.step(...)` — no break, no
termination predicate, no return value (the method returns None after logging
"Task completed").  The body `step` is abstracted by its outcome
(an exception aborts the loop); the result counts the completed iterations. -/
def myAgentRunLoop (stepOutcome : Nat → Except PyError Unit) :
    Nat → Nat → Except PyError Nat
  | _stepNo, 0 => .ok 0
  | stepNo, rem + 1 =>
      match stepOutcome stepNo with
      | .error e => .error e
      | .ok () => (myAgentRunLoop stepOutcome (stepNo + 1) rem).map (· + 1)

/-- Source src/my_agent.py `MyAgent.run` with default budget 1000. -/
def myAgentRun (stepOutcome : Nat → Except PyError Unit) (max_steps : Nat) :
    Except PyError Nat :=
  myAgentRunLoop stepOutcome 0 max_steps

/-- Source src/my_utils.py `MyAgentContext.generate_next_agent_id` (lines 44-50): a
process-wide counter kept as a function attribute, starting at 0 and
incremented on every call.  Modelled with the counter as explicit state:
returns `(allocated id, next counter state)`. -/
def generate_next_agent_id (s : Nat) : Nat × Nat := (s, s + 1)

/-- Source src/my_utils.py `MyAgentContext` (lines 26-50): save directory, run id,
`agent_id` (default -1) and the scratch memory (browser/model handles are the
shared collaborators and are not part of the embedded state). -/
structure MyAgentContext where
  save_dir : String
  run_id : String
  agent_id : Int := -1
  memory : Memory := {}
deriving Repr, DecidableEq

/-- Source src/my_utils.py `MyAgentContext.new_agent_context` (lines 36-42): a forked
context sharing save_dir/run_id, with a freshly allocated agent id and an
empty memory. -/
def new_agent_context (ctx : MyAgentContext) (s : Nat) : MyAgentContext × Nat :=
  match generate_next_agent_id s with
  | (next_id, s') =>
      ({ save_dir := ctx.save_dir, run_id := ctx.run_id,
         agent_id := (next_id : Int), memory := {} }, s')

/-- Source src/my_agent_tools.py `wna_navigate_and_find` (lines 438-453) with the id
allocator threaded: the child context is built by `ctx.new_agent_context()`
(allocating one id), the navigator child runs to completion (outcome from the
oracle) and its result is folded into the parent's tool result.  Returns the
child context (observable through logging) and the advanced counter. -/
def wna_navigate_and_find (oracle : DelegationOracle) (ctx : MyAgentContext)
    (s : Nat) (navigation_goal : String) :
    (MyAgentContext × Nat) × Except PyError ActionResult :=
  match new_agent_context ctx s with
  | (child_ctx, s') =>
      ((child_ctx, s'),
       match oracle.navigator_outcome navigation_goal with
       | .error e => .error e
       | .ok r => .ok { action_name := "wna_navigate_and_find",
                        action_result_msg := r.action_result_msg,
                        success := r.success })

/-- Source src/my_agent_tools.py `cea_extract_content` (lines 456-478) with the id
allocator threaded, symmetric to `wna_navigate_and_find`. -/
def cea_extract_content (oracle : DelegationOracle) (ctx : MyAgentContext)
    (s : Nat) (extraction_goal : String) (row_schema : String) :
    (MyAgentContext × Nat) × Except PyError ActionResult :=
  match new_agent_context ctx s with
  | (child_ctx, s') =>
      ((child_ctx, s'),
       match oracle.extractor_outcome extraction_goal row_schema with
       | .error e => .error e
       | .ok r => .ok { action_name := "cea_extract_content",
                        action_result_msg := r.action_result_msg,
                        success := r.success })

/-- The id produced by the n-th allocation after counter state `s`. -/
def nth_allocated_id (s : Nat) : Nat → Nat
  | 0 => (generate_next_agent_id s).1
  | n + 1 => nth_allocated_id (generate_next_agent_id s).2 n

/-! Conversation invariants and concrete fixtures. -/

/-- Whether an entry is a `tool_call` entry (`add_ai_function_tool_call_message`). -/
def isToolCallEntry : Message → Bool
  | .functionCall _ _ _ => true
  | _ => false

/-- Whether an entry is a `tool_result` entry (`add_tool_result_message`). -/
def isToolResultEntry : Message → Bool
  | .functionCallOutput _ _ => true
  | _ => false

/-- Number of `tool_call` entries in a conversation. -/
def countCalls (ms : List Message) : Nat := (ms.filter isToolCallEntry).length

/-- Number of `tool_result` entries in a conversation. -/
def countOutputs (ms : List Message) : Nat := (ms.filter isToolResultEntry).length

/-- The round-trip pairing invariant: every `tool_call` entry is immediately
followed by exactly one `tool_result` entry with the matching call identifier,
and no `tool_result` entry appears anywhere else. -/
def wellPaired : List Message → Bool
  | [] => true
  | .functionCall cid _ _ :: .functionCallOutput cid' _ :: rest =>
      cid == cid' && wellPaired rest
  | .functionCall _ _ _ :: _ => false
  | .functionCallOutput _ _ :: _ => false
  | _ :: rest => wellPaired rest

/-- Whether an entry is one of the ephemeral browser-state entries. -/
def isStateEntry : Message → Bool
  | .stateText _ _ => true
  | .stateImage _ => true
  | .stateEnd => true
  | .stateCombined _ _ => true
  | _ => false

/-- Boolean success test for an `Except` outcome. -/
def exceptIsOk : Except PyError α → Bool
  | .ok _ => true
  | .error _ => false

/-- A concrete delegation oracle (both children report a default success). -/
def oracle0 : DelegationOracle :=
  ⟨fun _ => .ok {}, fun _ _ => .ok {}⟩

/-- A concrete filesystem collaborator on which every read fails. -/
def fs0 : String → Except Unit String := fun _ => .error ()

/-- A concrete navigator tool set that never raises and never signals
completion. -/
def navExec0 : ToolCallData → Except PyError NavActionResult := fun _ => .ok {}

/-- A concrete browser-observation stream. -/
def obs0 : Nat → BrowserObs := fun _ => {}

/-- A concrete parent context for the delegation theorems. -/
def ctx0 : MyAgentContext := { save_dir := "logs/current", run_id := "run_0" }

/-- A script on which the model always answers with free text only. -/
def textScript : Nat → ModelResponse :=
  fun _ => { output_text := some ("Let me think about the next step.") }

/-- A script whose first response is a `done` tool call with `success=true`. -/
def doneScript : Nat → ModelResponse :=
  fun _ =>
    { output_text := none,
      tool_call := some ⟨"call_0", "done", "RAW_DONE_ARGS",
        .parsed (.doneArgs true ("Task finished successfully"))⟩ }

/-- A registered-tool call whose argument string is not valid JSON
(`json.loads` raises on it). -/
def malformedDoneCall : ToolCallData :=
  ⟨"call_7", "done", "this is not json", .malformed⟩

/-! Helper lemmas about the pairing invariant. -/

theorem wellPaired_counts (ms : List Message) (h : wellPaired ms = true) :
    countCalls ms = countOutputs ms := by
  induction ms using wellPaired.induct with
  | _ => simp_all [wellPaired, countCalls, countOutputs, isToolCallEntry, isToolResultEntry]

theorem wellPaired_append_other (ms : List Message) (m : Message)
    (hc : isToolCallEntry m = false) (hr : isToolResultEntry m = false)
    (h : wellPaired ms = true) : wellPaired (ms ++ [m]) = true := by
  induction ms using wellPaired.induct with
  | _ => cases m <;> simp_all [wellPaired, isToolCallEntry, isToolResultEntry]

theorem wellPaired_append_pair (ms : List Message) (cid nm args : String)
    (out : Option String) (h : wellPaired ms = true) :
    wellPaired (ms ++ [.functionCall cid nm args, .functionCallOutput cid out]) = true := by
  induction ms using wellPaired.induct with
  | _ => simp_all [wellPaired]

/-! Shape lemmas for the step functions. -/

theorem brainStep_ok_messages (persistOk : Bool) (oracle : DelegationOracle)
    (fs : String → Except Unit String) (st : BrainAgentState) (n : Nat)
    (resp : ModelResponse)
    (h : exceptIsOk (brainStep persistOk oracle fs st n resp).2 = true) :
    (∃ t, (brainStep persistOk oracle fs st n resp).1.messages
        = st.messages ++ [.assistant ("Current step: " ++ toString n), .assistant t]) ∨
    (∃ c r, (brainStep persistOk oracle fs st n resp).1.messages
        = st.messages ++ [.assistant ("Current step: " ++ toString n),
            .functionCall (ToolCallData.call_id c) (ToolCallData.name c)
              (ToolCallData.raw_arguments c),
            .functionCallOutput (ToolCallData.call_id c) r]) := by
  by_cases hp : persistOk
  · rcases hot : resp.output_text with _ | t
    · rcases htc : resp.tool_call with _ | c
      · simp [brainStep, persist_state, hp, hot, htc, exceptIsOk] at h
      · rcases hex : execute_tool (BRAIN_TOOLS oracle fs) st.memory c with e | p
        · simp [brainStep, persist_state, hp, hot, htc, hex, exceptIsOk] at h
        · right
          exact ⟨c, p.2.action_result_msg, by
            simp [brainStep, persist_state, hp, hot, htc, hex]⟩
    · left
      exact ⟨t, by simp [brainStep, persist_state, hp, hot]⟩
  · simp [brainStep, persist_state, hp, exceptIsOk] at h

theorem navStep_shape (persistOk : Bool)
    (navExec : ToolCallData → Except PyError NavActionResult)
    (obs : Nat → BrowserObs) (st : NavAgentState) (n : Nat)
    (resp : NavModelResponse) :
    ∃ (extra : List Message) (pnew : List (Nat × List Message)),
      (navStep persistOk navExec obs st n resp).1.messages = st.messages ++ extra ∧
      (∀ m ∈ extra, isStateEntry m = false) ∧
      (navStep persistOk navExec obs st n resp).1.persisted = st.persisted ++ pnew ∧
      (pnew = [] ∨ pnew = [(n, st.messages ++ get_current_state_message n (obs n))]) := by
  by_cases hp : persistOk
  · rcases hot : resp.output_text with _ | pt
    · rcases htc : resp.tool_call with _ | c
      · exact ⟨[], [(n, st.messages ++ get_current_state_message n (obs n))],
          by simp [navStep, persist_state, hp, hot, htc], by simp,
          by simp [navStep, persist_state, hp, hot, htc], Or.inr rfl⟩
      · rcases hex : navExec c with e | r
        · exact ⟨[.functionCall c.call_id c.name c.raw_arguments],
            [(n, st.messages ++ get_current_state_message n (obs n))],
            by simp [navStep, persist_state, hp, hot, htc, hex],
            by simp [isStateEntry],
            by simp [navStep, persist_state, hp, hot, htc, hex], Or.inr rfl⟩
        · exact ⟨[.functionCall c.call_id c.name c.raw_arguments,
              .functionCallOutput c.call_id r.action_result_msg],
            [(n, st.messages ++ get_current_state_message n (obs n))],
            by simp [navStep, persist_state, hp, hot, htc, hex],
            by simp [isStateEntry],
            by simp [navStep, persist_state, hp, hot, htc, hex], Or.inr rfl⟩
    · rcases pt with _ | j
      · exact ⟨[], [(n, st.messages ++ get_current_state_message n (obs n))],
          by simp [navStep, persist_state, hp, hot], by simp,
          by simp [navStep, persist_state, hp, hot], Or.inr rfl⟩
      · rcases htc : resp.tool_call with _ | c
        · exact ⟨[.assistant j], [(n, st.messages ++ get_current_state_message n (obs n))],
            by simp [navStep, persist_state, hp, hot, htc], by simp [isStateEntry],
            by simp [navStep, persist_state, hp, hot, htc], Or.inr rfl⟩
        · rcases hex : navExec c with e | r
          · exact ⟨[.assistant j, .functionCall c.call_id c.name c.raw_arguments],
              [(n, st.messages ++ get_current_state_message n (obs n))],
              by simp [navStep, persist_state, hp, hot, htc, hex],
              by simp [isStateEntry],
              by simp [navStep, persist_state, hp, hot, htc, hex], Or.inr rfl⟩
          · exact ⟨[.assistant j, .functionCall c.call_id c.name c.raw_arguments,
                .functionCallOutput c.call_id r.action_result_msg],
              [(n, st.messages ++ get_current_state_message n (obs n))],
              by simp [navStep, persist_state, hp, hot, htc, hex],
              by simp [isStateEntry],
              by simp [navStep, persist_state, hp, hot, htc, hex], Or.inr rfl⟩
  · exact ⟨[], [], by simp [navStep, persist_state, hp], by simp,
      by simp [navStep, persist_state, hp], Or.inl rfl⟩

theorem navStep_total_wellPaired (persistOk : Bool)
    (navExec' : ToolCallData → NavActionResult) (obs : Nat → BrowserObs)
    (st : NavAgentState) (n : Nat) (resp : NavModelResponse)
    (h : wellPaired st.messages = true) :
    wellPaired (navStep persistOk (fun c => .ok (navExec' c)) obs st n resp).1.messages
      = true := by
  by_cases hp : persistOk
  · rcases hot : resp.output_text with _ | pt
    · rcases htc : resp.tool_call with _ | c
      · simpa [navStep, persist_state, hp, hot, htc] using h
      · have h2 := wellPaired_append_pair st.messages c.call_id c.name c.raw_arguments
          (navExec' c).action_result_msg h
        simpa [navStep, persist_state, hp, hot, htc, List.append_assoc] using h2
    · rcases pt with _ | j
      · simpa [navStep, persist_state, hp, hot] using h
      · have h1 := wellPaired_append_other st.messages (.assistant j) rfl rfl h
        rcases htc : resp.tool_call with _ | c
        · simpa [navStep, persist_state, hp, hot, htc] using h1
        · have h2 := wellPaired_append_pair (st.messages ++ [.assistant j])
            c.call_id c.name c.raw_arguments (navExec' c).action_result_msg h1
          simpa [navStep, persist_state, hp, hot, htc, List.append_assoc] using h2
  · simpa [navStep, persist_state, hp] using h

theorem navStep_total_not_done (navExec' : ToolCallData → NavActionResult)
    (hdone : ∀ c, (navExec' c).is_done = false) (obs : Nat → BrowserObs)
    (st : NavAgentState) (n : Nat) (resp : NavModelResponse)
    (htext : resp.output_text ≠ some .malformed) :
    ∃ b, (navStep true (fun c => .ok (navExec' c)) obs st n resp).2 = .ok (false, b) := by
  rcases hot : resp.output_text with _ | pt
  · rcases htc : resp.tool_call with _ | c
    · exact ⟨true, by simp [navStep, persist_state, hot, htc]⟩
    · exact ⟨(navExec' c).success, by simp [navStep, persist_state, hot, htc, hdone c]⟩
  · rcases pt with _ | j
    · exact absurd (hot.trans rfl) htext
    · rcases htc : resp.tool_call with _ | c
      · exact ⟨true, by simp [navStep, persist_state, hot, htc]⟩
      · exact ⟨(navExec' c).success, by simp [navStep, persist_state, hot, htc, hdone c]⟩

theorem navRunLoop_total_wellPaired (persistOk : Bool)
    (navExec' : ToolCallData → NavActionResult) (obs : Nat → BrowserObs)
    (script : Nat → NavModelResponse) :
    ∀ (rem stepNo : Nat) (st : NavAgentState), wellPaired st.messages = true →
      wellPaired (navRunLoop persistOk (fun c => .ok (navExec' c)) obs script
        stepNo rem st).1.messages = true := by
  intro rem
  induction rem with
  | zero => intro stepNo st h; exact h
  | succ m ih =>
      intro stepNo st h
      have hstep := navStep_total_wellPaired persistOk navExec' obs st stepNo
        (script stepNo) h
      rcases hs : navStep persistOk (fun c => .ok (navExec' c)) obs st stepNo
        (script stepNo) with ⟨st', out⟩
      rw [hs] at hstep
      rcases out with e | ⟨d, b⟩
      · simpa [navRunLoop, hs] using hstep
      · rcases d with _ | _
        · rcases hr : navRunLoop persistOk (fun c => .ok (navExec' c)) obs script
            (stepNo + 1) m st' with ⟨st'', res, k⟩
          have h2 := ih (stepNo + 1) st' hstep
          rw [hr] at h2
          simpa [navRunLoop, hs, hr] using h2
        · simpa [navRunLoop, hs] using hstep

theorem navRunLoop_never_done (navExec' : ToolCallData → NavActionResult)
    (hdone : ∀ c, (navExec' c).is_done = false) (obs : Nat → BrowserObs)
    (script : Nat → NavModelResponse)
    (htext : ∀ k, (script k).output_text ≠ some .malformed) :
    ∀ (rem stepNo : Nat) (st : NavAgentState),
      (navRunLoop true (fun c => .ok (navExec' c)) obs script stepNo rem st).2
        = (.ok (), rem) := by
  intro rem
  induction rem with
  | zero => intro stepNo st; rfl
  | succ m ih =>
      intro stepNo st
      obtain ⟨b, hb⟩ := navStep_total_not_done navExec' hdone obs st stepNo
        (script stepNo) (htext stepNo)
      rcases hs : navStep true (fun c => .ok (navExec' c)) obs st stepNo
        (script stepNo) with ⟨st', out⟩
      rw [hs] at hb
      simp only at hb
      subst hb
      rcases hr : navRunLoop true (fun c => .ok (navExec' c)) obs script
        (stepNo + 1) m st' with ⟨st'', res, k⟩
      have h2 := ih (stepNo + 1) st'
      rw [hr] at h2
      simp only at h2
      simp only [navRunLoop, hs, hr]
      rw [Prod.mk.injEq] at h2
      simp [h2.1, h2.2]

/-- The durable-list half of the ephemeral-exclusion invariant: the
MessageManager's durable list holds no browser-state entry. -/
def durableInv (st : NavAgentState) : Prop :=
  ∀ m ∈ st.messages, isStateEntry m = false

/-- The transcript half of the ephemeral-exclusion invariant: any state entry
inside the transcript persisted for step `p.1` is one of the state entries
freshly derived for step `p.1` itself; in particular the step number carried
by a persisted `stateText` entry is the persisting step's own. -/
def persistedInv (obs : Nat → BrowserObs) (st : NavAgentState) : Prop :=
  ∀ p ∈ st.persisted,
    (∀ m ∈ p.2, isStateEntry m = true → m ∈ get_current_state_message p.1 (obs p.1)) ∧
    (∀ (j : Nat) (o : BrowserObs), Message.stateText j o ∈ p.2 → j = p.1 ∧ o = obs p.1)

theorem navStep_state_invariant (persistOk : Bool)
    (navExec : ToolCallData → Except PyError NavActionResult)
    (obs : Nat → BrowserObs) (st : NavAgentState) (n : Nat)
    (resp : NavModelResponse) (hd : durableInv st) (hp : persistedInv obs st) :
    durableInv (navStep persistOk navExec obs st n resp).1 ∧
    persistedInv obs (navStep persistOk navExec obs st n resp).1 := by
  obtain ⟨extra, pnew, hmsg, hextra, hpers, hcase⟩ :=
    navStep_shape persistOk navExec obs st n resp
  constructor
  · intro m hm
    rw [hmsg] at hm
    rcases List.mem_append.mp hm with h1 | h2
    · exact hd m h1
    · exact hextra m h2
  · intro p hpmem
    rw [hpers] at hpmem
    rcases List.mem_append.mp hpmem with h1 | h2
    · exact hp p h1
    · rcases hcase with hnil | hone
      · rw [hnil] at h2; cases h2
      · rw [hone] at h2
        rcases List.mem_singleton.mp h2 with rfl
        constructor
        · intro m hm hstate
          rcases List.mem_append.mp hm with hA | hB
          · exact absurd hstate (by simp [hd m hA])
          · exact hB
        · intro j o hm
          rcases List.mem_append.mp hm with hA | hB
          · have := hd _ hA
            simp [isStateEntry] at this
          · simp only [get_current_state_message, List.mem_cons,
              List.not_mem_nil, or_false] at hB
            rcases hB with h | h | h
            · exact ⟨(Message.stateText.injEq _ _ _ _).mp h |>.1,
                (Message.stateText.injEq _ _ _ _).mp h |>.2⟩
            · cases h
            · cases h

theorem navRunLoop_state_invariant (persistOk : Bool)
    (navExec : ToolCallData → Except PyError NavActionResult)
    (obs : Nat → BrowserObs) (script : Nat → NavModelResponse) :
    ∀ (rem stepNo : Nat) (st : NavAgentState), durableInv st → persistedInv obs st →
      durableInv (navRunLoop persistOk navExec obs script stepNo rem st).1 ∧
      persistedInv obs (navRunLoop persistOk navExec obs script stepNo rem st).1 := by
  intro rem
  induction rem with
  | zero => intro stepNo st hd hp; exact ⟨hd, hp⟩
  | succ m ih =>
      intro stepNo st hd hp
      have hstep := navStep_state_invariant persistOk navExec obs st stepNo
        (script stepNo) hd hp
      rcases hs : navStep persistOk navExec obs st stepNo (script stepNo) with ⟨st', out⟩
      rw [hs] at hstep
      rcases out with e | ⟨d, b⟩
      · simpa [navRunLoop, hs] using hstep
      · rcases d with _ | _
        · rcases hr : navRunLoop persistOk navExec obs script (stepNo + 1) m st'
            with ⟨st'', res, k⟩
          have h2 := ih (stepNo + 1) st' hstep.1 hstep.2
          rw [hr] at h2
          simpa [navRunLoop, hs, hr] using h2
        · simpa [navRunLoop, hs] using hstep

theorem myAgentRunLoop_all_ok (stepOutcome : Nat → Except PyError Unit)
    (h : ∀ k, stepOutcome k = .ok ()) :
    ∀ (rem stepNo : Nat), myAgentRunLoop stepOutcome stepNo rem = .ok rem := by
  intro rem
  induction rem with
  | zero => intro stepNo; rfl
  | succ m ih =>
      intro stepNo
      simp [myAgentRunLoop, h stepNo, ih (stepNo + 1), Except.map]

theorem nth_allocated_id_eq (s n : Nat) : nth_allocated_id s n = s + n := by
  induction n generalizing s with
  | zero => rfl
  | succ m ih =>
      simp only [nth_allocated_id, generate_next_agent_id, ih]
      omega

/-! The claims. -/

/-- Claim C5: for every tool call whose name matches no tool registered in the
agent's tool list, `MyAgentTools.execute_tool` returns an ActionResult with
`success=False` and does not raise (the lookup precedes the argument parsing,
so not even a malformed argument string can make the unknown-name path raise). -/
theorem execute_tool_unknown_name_fails_without_raising (tools : List ToolDef)
    (mem : Memory) (call : ToolCallData)
    (h : call.name ∉ tools.map ToolDef.name) :
    execute_tool tools mem call =
      .ok (mem,
        { action_name := "execute_tool",
          action_result_msg := some ("Tool '" ++ call.name ++ "' not found"),
          success := false }) := by
  have hfind : tools.find? (fun t => t.name == call.name) = none := by
    rw [List.find?_eq_none]
    intro t ht
    simp only [beq_iff_eq]
    intro heq
    exact h (heq ▸ List.mem_map_of_mem ToolDef.name ht)
  simp [execute_tool, hfind]

/-- Witness for C5: dispatching the unregistered name "no_such_tool" against
the brain tool set (even with a malformed argument string) yields a failed
ActionResult, not an exception. -/
theorem execute_tool_unknown_name_fails_without_raising_witness :
    ("no_such_tool" ∉ (BRAIN_TOOLS oracle0 fs0).map ToolDef.name) ∧
    execute_tool (BRAIN_TOOLS oracle0 fs0) {}
        ⟨"call_1", "no_such_tool", "this is not json", .malformed⟩ =
      .ok ({},
        { action_name := "execute_tool",
          action_result_msg := some ("Tool 'no_such_tool' not found"),
          success := false }) :=
  ⟨by decide, execute_tool_unknown_name_fails_without_raising _ _ _ (by decide)⟩

/-- Claim C10: calling `persist_rows` with an empty rows list returns an
ActionResult with `success=False` and leaves the Context memory unchanged —
no "extracted_rows" key is created and no accumulated rows are touched. -/
theorem persist_rows_empty_fails_and_leaves_memory_unchanged (mem : Memory) :
    (persist_rows mem []).1 = mem ∧
    (persist_rows mem []).2.success = false ∧
    (persist_rows mem []).2.action_result_msg = some ("No rows were passed to the tool!") :=
  ⟨rfl, rfl, rfl⟩

/-- Claim C4, evaluated at its own scenario: after `persist_rows` batches of
sizes 3 and 2, the memory does hold the 5 rows in append order, but
`extraction_done` then RAISES `UnboundLocalError('csv_filename')` instead of
returning the finalized rows and writing a CSV: the rows are stored as JSON
strings, `extracted_rows[0].keys()` raises AttributeError (a `str` has no
`.keys`), the `except` swallows it, and the final `return` references the
never-assigned local `csv_filename`. -/
theorem extraction_finalize_raises_unbound_local :
    (persist_rows {} ["r1", "r2", "r3"]).2.success = true ∧
    (persist_rows {} ["r1", "r2", "r3"]).1.extracted_rows = some ["r1", "r2", "r3"] ∧
    (persist_rows (persist_rows {} ["r1", "r2", "r3"]).1 ["r4", "r5"]).2.success = true ∧
    (persist_rows (persist_rows {} ["r1", "r2", "r3"]).1 ["r4", "r5"]).1.extracted_rows
      = some ["r1", "r2", "r3", "r4", "r5"] ∧
    extraction_done true
        (persist_rows (persist_rows {} ["r1", "r2", "r3"]).1 ["r4", "r5"]).1
        true ("All requested rows were extracted")
      = .error (.unboundLocalError ("csv_filename")) :=
  ⟨rfl, rfl, rfl, rfl, rfl⟩

/-- Claim C3, evaluated at its own scenario: when the model's first response is
a `done` tool call with `success=true`, `MyBrainAgent.run` does NOT return a
successful ActionResult at step 0 — it raises AttributeError, because the
`if action_result.is_done` termination check dereferences a field that
`my_agent_tools.ActionResult` does not define (the source itself constructs
ActionResults with an `is_done=...` keyword that pydantic silently drops). -/
theorem brain_run_done_success_raises_attribute_error :
    (brainRun true oracle0 fs0 doneScript 1000).2
      = .error (.attributeError ("is_done")) := rfl

/-- Counterexample to claim C1: with step budget 5 and a script on which no
step ever signals completion (the model always answers with free text),
`MyBrainAgent.run` does not run 5 steps and does not deliver a terminal
failing ActionResult — it raises AttributeError at its very first
`action_result.is_done` termination check, i.e. an exception, not a
controlled failure. -/
theorem budget_exhaustion_brain_raises :
    (brainRun true oracle0 fs0 textScript 5).2
      = .error (.attributeError ("is_done")) := rfl

/-- Claim C1 amended: a run loop with budget N on which no step signals
completion behaves as follows. `MyAgent.run` executes exactly N steps and
returns None — no ActionResult of any kind reaches the caller.
`MyNavigatorAgent.run` (with its tool set never raising and never reporting
`is_done`, and no malformed output text) likewise executes exactly N steps and
returns None. `MyBrainAgent.run` raises AttributeError right after its first
completed step, because its termination check reads the non-existent
`is_done` field of ActionResult. -/
theorem run_loop_budget_behaviour :
    (∀ (stepOutcome : Nat → Except PyError Unit) (N : Nat),
        (∀ k, stepOutcome k = .ok ()) → myAgentRun stepOutcome N = .ok N) ∧
    (∀ (navExec' : ToolCallData → NavActionResult) (obs : Nat → BrowserObs)
        (script : Nat → NavModelResponse) (N : Nat),
        (∀ c, (navExec' c).is_done = false) →
        (∀ k, (script k).output_text ≠ some .malformed) →
        (navRun true (fun c => .ok (navExec' c)) obs script N).2 = (.ok (), N)) ∧
    (∀ (oracle : DelegationOracle) (fs : String → Except Unit String)
        (script : Nat → ModelResponse) (N : Nat),
        0 < N → (∃ t, (script 0).output_text = some t) →
        (brainRun true oracle fs script N).2 = .error (.attributeError ("is_done"))) := by
  refine ⟨?_, ?_, ?_⟩
  · intro stepOutcome N h
    exact myAgentRunLoop_all_ok stepOutcome h N 0
  · intro navExec' obs script N hdone htext
    exact navRunLoop_never_done navExec' hdone obs script htext N 0 navInit
  · intro oracle fs script N hN ht
    obtain ⟨t, ht⟩ := ht
    rcases N with _ | m
    · exact absurd hN (by omega)
    · show (brainRunLoop true oracle fs script 0 (m + 1) none brainInit).2 = _
      have hb : (brainStep true oracle fs brainInit 0 (script 0)).2
          = .ok { action_result_msg := some ("No action executed. The model output is text."),
                  success := true } := by
        simp [brainStep, persist_state, ht]
      rcases hs : brainStep true oracle fs brainInit 0 (script 0) with ⟨st', out⟩
      rw [hs] at hb
      simp only at hb
      subst hb
      simp [brainRunLoop, hs, ActionResult.is_done_attr]

/-- Witness for the amended C1 at concrete inputs: a 3-step MyAgent loop
completes all 3 steps with no result object, a 2-step navigator run returns
None after exactly 2 steps, and a brain run with budget 7 raises. -/
theorem run_loop_budget_behaviour_witness :
    myAgentRun (fun _ => .ok ()) 3 = .ok 3 ∧
    (navRun true (fun c => .ok ((fun _ => ({} : NavActionResult)) c)) obs0
        (fun _ => ({} : NavModelResponse)) 2).2 = (.ok (), 2) ∧
    (brainRun true oracle0 fs0 textScript 7).2 = .error (.attributeError ("is_done")) :=
  ⟨run_loop_budget_behaviour.1 (fun _ => .ok ()) 3 (fun _ => rfl),
   run_loop_budget_behaviour.2.1 (fun _ => {}) obs0 (fun _ => {}) 2
     (fun _ => rfl) (fun _ h => Option.noConfusion h),
   run_loop_budget_behaviour.2.2 oracle0 fs0 textScript 7 (by decide)
     ⟨"Let me think about the next step.", rfl⟩⟩

/-- Counterexample to claim C2: a call to the registered tool `done` whose
argument string is not valid JSON makes `execute_tool` raise JSONDecodeError
AFTER the `tool_call` entry was appended to the MessageManager, so the
conversation built during this run ends with one `tool_call` entry and zero
`tool_result` entries — the counts are not equal. -/
theorem round_trip_dangling_tool_call :
    countCalls (brainStep true oracle0 fs0 brainInit 0
        { output_text := none, tool_call := some malformedDoneCall }).1.messages = 1 ∧
    countOutputs (brainStep true oracle0 fs0 brainInit 0
        { output_text := none, tool_call := some malformedDoneCall }).1.messages = 0 ∧
    (brainStep true oracle0 fs0 brainInit 0
        { output_text := none, tool_call := some malformedDoneCall }).2
      = .error .jsonDecodeError :=
  ⟨rfl, rfl, rfl⟩

/-- Claim C2 amended: the pairing invariant — every `tool_call` entry is
immediately followed (hence before the next model invocation) by exactly one
`tool_result` entry with the matching call identifier, and the two counts are
equal — holds for every brain step whose tool dispatch completes without
raising, and for every navigator run whose tool set never raises; a raising
dispatch aborts the run leaving one trailing unmatched `tool_call` entry. -/
theorem tool_call_round_trip_invariant :
    (∀ (persistOk : Bool) (oracle : DelegationOracle)
        (fs : String → Except Unit String) (st : BrainAgentState) (n : Nat)
        (resp : ModelResponse),
        wellPaired st.messages = true →
        exceptIsOk (brainStep persistOk oracle fs st n resp).2 = true →
        wellPaired (brainStep persistOk oracle fs st n resp).1.messages = true ∧
        countCalls (brainStep persistOk oracle fs st n resp).1.messages
          = countOutputs (brainStep persistOk oracle fs st n resp).1.messages) ∧
    (∀ (persistOk : Bool) (navExec' : ToolCallData → NavActionResult)
        (obs : Nat → BrowserObs) (script : Nat → NavModelResponse) (N : Nat),
        wellPaired (navRun persistOk (fun c => .ok (navExec' c)) obs script N).1.messages
          = true ∧
        countCalls (navRun persistOk (fun c => .ok (navExec' c)) obs script N).1.messages
          = countOutputs
              (navRun persistOk (fun c => .ok (navExec' c)) obs script N).1.messages) := by
  constructor
  · intro persistOk oracle fs st n resp hwp hok
    have hshape := brainStep_ok_messages persistOk oracle fs st n resp hok
    have hw : wellPaired (brainStep persistOk oracle fs st n resp).1.messages = true := by
      rcases hshape with ⟨t, hmsg⟩ | ⟨c, r, hmsg⟩
      · rw [hmsg, show st.messages ++ [Message.assistant ("Current step: " ++ toString n),
            Message.assistant t]
            = (st.messages ++ [Message.assistant ("Current step: " ++ toString n)])
              ++ [Message.assistant t] by simp]
        exact wellPaired_append_other _ _ rfl rfl
          (wellPaired_append_other _ _ rfl rfl hwp)
      · rw [hmsg, show st.messages ++ [Message.assistant ("Current step: " ++ toString n),
            Message.functionCall c.call_id c.name c.raw_arguments,
            Message.functionCallOutput c.call_id r]
            = (st.messages ++ [Message.assistant ("Current step: " ++ toString n)])
              ++ [Message.functionCall c.call_id c.name c.raw_arguments,
                  Message.functionCallOutput c.call_id r] by simp]
        exact wellPaired_append_pair _ _ _ _ _
          (wellPaired_append_other _ _ rfl rfl hwp)
    exact ⟨hw, wellPaired_counts _ hw⟩
  · intro persistOk navExec' obs script N
    have hw := navRunLoop_total_wellPaired persistOk navExec' obs script N 0 navInit
      (by decide)
    exact ⟨hw, wellPaired_counts _ hw⟩

/-- Witness for the amended C2 at concrete inputs: a brain step that
dispatches a well-formed `done` call keeps the conversation well paired with
equal counts, and a concrete 3-step navigator run does too. -/
theorem tool_call_round_trip_invariant_witness :
    (wellPaired (brainStep true oracle0 fs0 brainInit 0 (doneScript 0)).1.messages = true ∧
     countCalls (brainStep true oracle0 fs0 brainInit 0 (doneScript 0)).1.messages
       = countOutputs (brainStep true oracle0 fs0 brainInit 0 (doneScript 0)).1.messages) ∧
    (wellPaired (navRun true (fun c => .ok ((fun _ => ({} : NavActionResult)) c)) obs0
        (fun _ => ({} : NavModelResponse)) 3).1.messages = true) :=
  ⟨tool_call_round_trip_invariant.1 true oracle0 fs0 brainInit 0 (doneScript 0)
      (by decide) (by decide),
   (tool_call_round_trip_invariant.2 true (fun _ => {}) obs0 (fun _ => {}) 3).1⟩

/-- Counterexample to claim C6: the navigator's step, handed a model response
with neither output text nor a function tool call, raises nothing — it logs,
returns `(is_done=False, is_success=True)` and the loop continues. -/
theorem navigator_empty_response_continues :
    (navStep true navExec0 obs0 navInit 0 {}).2 = .ok (false, true) := rfl

/-- Claim C6 amended: a model response with neither free text nor a tool call
is fatal for `MyBrainAgent.step` (raises Exception) and for
`MyContentExtractAgent.step` (raises RuntimeError), surfaced immediately to
the caller; `MyNavigatorAgent.step` however treats it as a non-terminal no-op
and continues the loop. -/
theorem empty_model_response_policy :
    (∀ (oracle : DelegationOracle) (fs : String → Except Unit String)
        (st : BrainAgentState) (n : Nat),
        (brainStep true oracle fs st n {}).2
          = .error (.exception ("Step " ++ toString n
              ++ ", No function tool call or response message"))) ∧
    (∀ (tools : List ToolDef) (obs : Nat → BrowserObs) (md : String)
        (st : CeaAgentState) (n : Nat),
        (ceaStep true tools obs md st n {}).2
          = .error (.runtimeError ("No function tool call detected."))) ∧
    (∀ (navExec : ToolCallData → Except PyError NavActionResult)
        (obs : Nat → BrowserObs) (st : NavAgentState) (n : Nat),
        (navStep true navExec obs st n {}).2 = .ok (false, true)) :=
  ⟨fun _ _ _ _ => rfl, fun _ _ _ _ _ => rfl, fun _ _ _ _ => rfl⟩

/-- Counterexample to claim C7: a failing transcript write inside
`persist_state` is not logged-and-skipped — the brain step aborts with the
propagated error before even consulting the model response. -/
theorem persistence_failure_aborts_step :
    (brainStep false oracle0 fs0 brainInit 0 (textScript 0)).2 = .error .osError := rfl

/-- Claim C7 amended: `persist_state` and `save_screenshot` contain no
exception handling, and their callers none either, so a failing disk write
raises and the exception propagates out of the agent's step (for every agent
role) instead of being logged and skipped. -/
theorem persistence_failure_propagates :
    (∀ (oracle : DelegationOracle) (fs : String → Except Unit String)
        (st : BrainAgentState) (n : Nat) (resp : ModelResponse),
        (brainStep false oracle fs st n resp).2 = .error .osError) ∧
    (∀ (navExec : ToolCallData → Except PyError NavActionResult)
        (obs : Nat → BrowserObs) (st : NavAgentState) (n : Nat)
        (resp : NavModelResponse),
        (navStep false navExec obs st n resp).2 = .error .osError) ∧
    (∀ (tools : List ToolDef) (obs : Nat → BrowserObs) (md : String)
        (st : CeaAgentState) (n : Nat) (resp : CeaModelResponse),
        (ceaStep false tools obs md st n resp).2 = .error .osError) ∧
    (∀ n, save_screenshot false n = .error .osError) :=
  ⟨fun _ _ _ _ _ => rfl, fun _ _ _ _ _ => rfl, fun _ _ _ _ _ _ => rfl, fun _ => rfl⟩

/-- Claim C8: for every navigator run, the ephemeral per-step browser-state
entries appended to the wire-format input at step K are never stored in the
MessageManager's durable message list (`durableInv`), and every state entry
found in the transcript persisted at any step is one freshly derived for that
very step (`persistedInv`) — in particular the transcript persisted at step
K+1 contains no state entry of step K, every state entry in it being step
K+1's own re-derivation. -/
theorem ephemeral_state_excluded_from_durable_history (persistOk : Bool)
    (navExec : ToolCallData → Except PyError NavActionResult)
    (obs : Nat → BrowserObs) (script : Nat → NavModelResponse) (N : Nat) :
    durableInv (navRun persistOk navExec obs script N).1 ∧
    persistedInv obs (navRun persistOk navExec obs script N).1 :=
  navRunLoop_state_invariant persistOk navExec obs script N 0 navInit
    (by intro m hm
        simp only [navInit, List.mem_cons, List.not_mem_nil, or_false] at hm
        rcases hm with h | h <;> (subst h; rfl))
    (fun p hp => absurd hp (List.not_mem_nil p))

/-- Witness for C8 at a concrete 2-step navigator run: the transcript
persisted at step 1 does contain a state entry, and the theorem pins its step
index and observation to step 1's own. -/
theorem ephemeral_state_excluded_witness :
    ((1, navInit.messages ++ get_current_state_message 1 (obs0 1)) ∈
        (navRun true navExec0 obs0 (fun _ => ({} : NavModelResponse)) 2).1.persisted) ∧
    (Message.stateText 1 (obs0 1)
        ∈ navInit.messages ++ get_current_state_message 1 (obs0 1)) ∧
    ((1 : Nat) = 1 ∧ obs0 1 = obs0 1) := by
  refine ⟨by decide, by decide, ?_⟩
  exact ((ephemeral_state_excluded_from_durable_history true navExec0 obs0
      (fun _ => ({} : NavModelResponse)) 2).2
    (1, navInit.messages ++ get_current_state_message 1 (obs0 1)) (by decide)).2
    1 (obs0 1) (by decide)

/-- Claim C9: each invocation of a delegation tool allocates the child agent's
id through `new_agent_context` from the monotonically increasing allocator, so
two delegations in the same run (wna then wna, or wna then cea) produce
distinct child agent ids, and more generally the n-th and m-th allocations of
a run never collide for n ≠ m. -/
theorem delegation_child_ids_distinct (oracle : DelegationOracle)
    (ctx : MyAgentContext) (s : Nat) (g1 g2 eg rs : String) (n m : Nat)
    (h : n ≠ m) :
    ((wna_navigate_and_find oracle ctx s g1).1.1.agent_id
        ≠ (wna_navigate_and_find oracle ctx
            (wna_navigate_and_find oracle ctx s g1).1.2 g2).1.1.agent_id) ∧
    ((wna_navigate_and_find oracle ctx s g1).1.1.agent_id
        ≠ (cea_extract_content oracle ctx
            (wna_navigate_and_find oracle ctx s g1).1.2 eg rs).1.1.agent_id) ∧
    nth_allocated_id s n ≠ nth_allocated_id s m := by
  refine ⟨?_, ?_, ?_⟩
  · simp only [wna_navigate_and_find, new_agent_context, generate_next_agent_id]
    omega
  · simp only [wna_navigate_and_find, cea_extract_content, new_agent_context,
      generate_next_agent_id]
    omega
  · rw [nth_allocated_id_eq, nth_allocated_id_eq]
    omega

/-- Witness for C9 at concrete inputs: allocations 0 and 1 after counter state
5 give different ids. -/
theorem delegation_child_ids_distinct_witness :
    (0 : Nat) ≠ 1 ∧ nth_allocated_id 5 0 ≠ nth_allocated_id 5 1 :=
  ⟨by decide,
   (delegation_child_ids_distinct oracle0 ctx0 5 ("g1") ("g2") ("eg") ("rs") 0 1
     (by decide)).2.2⟩

end AgentCore
